import Mathlib

/-!
Verification of the Claim Risk and Repair-Cost Decision Engine of the
AI-powered-Insurance-Claims repository.

The Python sources are embedded shallowly:

* `app/services/ai/repair_rag_service.py` — `RepairKnowledgeBase` reference
  data, key normalization and `get_repair_context`;
* `app/ui/claim_review_app.py` — `calculate_fraud_realtime` (steps 1..6 of
  the fraud pipeline);
* `scripts/ingest_kaggle_data.py` — the deterministic core of
  `generate_fraud_score_from_row` (composite score and risk level);
* `app/services/damage/image_analyzer.py` — `assess_claim_damage` field
  derivation and `get_assessment_summary`;
* `app/services/ai/vision_analyzer.py` — `_aggregate_analyses`.

Python numbers (floats and ints used for money and scores) are modelled as
rationals; Python `str.lower` is modelled as the per-character ASCII case
map `Char.toLower`, matching the alphabet actually used by the engine.
Code paths that raise in Python (division by zero, indexing a non-dict)
are modelled with `Except`/`Option`.
-/

/- ## Key normalization (repair_rag_service.py line 141)
   `damage_type.lower().replace(" ", "_").replace("-", "_")`.
   `str.lower` and single-character `str.replace` are per-character maps. -/

/-- Python str.lower on one string, character by character. -/
def pyLowerStr (s : String) : String :=
  String.mk (s.data.map Char.toLower)

/-- Python str.replace with single-character pattern and replacement. -/
def replaceAll (a b : Char) (s : String) : String :=
  String.mk (s.data.map (fun c => if c = a then b else c))

/-- `damage_type.lower().replace(" ", "_").replace("-", "_")`. -/
def normalizeKey (s : String) : String :=
  replaceAll '-' '_' (replaceAll ' ' '_' (pyLowerStr s))

/-- The combined per-character action of `normalizeKey`. -/
def normCharFn (c : Char) : Char :=
  if c.toLower = ' ' then '_'
  else if c.toLower = '-' then '_'
  else c.toLower

theorem toLower_toLower (c : Char) : c.toLower.toLower = c.toLower := by
  by_cases h : c.toNat ≥ 65 ∧ c.toNat ≤ 90
  · have h1 : c.toLower = Char.ofNat (c.toNat + 32) := by
      simp [Char.toLower, h]
    obtain ⟨h65, h90⟩ := h
    rw [h1]
    set n := c.toNat with hn
    interval_cases n <;> decide
  · have h1 : c.toLower = c := by
      simp [Char.toLower, h]
    rw [h1]
    exact h1

theorem normCharFn_eq (c : Char) :
    (if (if c.toLower = ' ' then '_' else c.toLower) = '-' then '_'
     else (if c.toLower = ' ' then '_' else c.toLower)) = normCharFn c := by
  by_cases h1 : c.toLower = ' '
  · simp [normCharFn, h1]
  · simp [normCharFn, h1]

theorem normalizeKey_data (s : String) :
    (normalizeKey s).data = s.data.map normCharFn := by
  show List.map (fun c => if c = '-' then '_' else c)
      (List.map (fun c => if c = ' ' then '_' else c) (List.map Char.toLower s.data))
      = s.data.map normCharFn
  rw [List.map_map, List.map_map]
  refine List.map_congr_left (fun c _ => ?_)
  exact normCharFn_eq c

theorem normCharFn_idem (c : Char) : normCharFn (normCharFn c) = normCharFn c := by
  by_cases h1 : c.toLower = ' '
  · have hv : normCharFn c = '_' := by simp [normCharFn, h1]
    rw [hv]
    decide
  · by_cases h2 : c.toLower = '-'
    · have hv : normCharFn c = '_' := by simp [normCharFn, h1, h2]
      rw [hv]
      decide
    · have hv : normCharFn c = c.toLower := by simp [normCharFn, h1, h2]
      rw [hv]
      simp [normCharFn, toLower_toLower, h1, h2]

/-- C9: `normalize` is idempotent.  Stated over the string type; the
function is total by construction. -/
theorem normalizeKey_idem (s : String) :
    normalizeKey (normalizeKey s) = normalizeKey s := by
  have h1 := normalizeKey_data (normalizeKey s)
  have h2 := normalizeKey_data s
  apply String.ext
  rw [h1, h2, List.map_map]
  refine List.map_congr_left (fun c _ => ?_)
  exact normCharFn_idem c

/- ## RepairKnowledgeBase (repair_rag_service.py lines 21..211) -/

/-- One severity row of `REPAIR_COSTS`: `{"min": _, "max": _, "avg_days": _}`. -/
structure CostRow where
  cmin : ℕ
  cmax : ℕ
  avgDays : ℕ
  deriving DecidableEq, Repr

/-- One `REPAIR_COSTS` value: three severity rows plus description and parts. -/
structure RepairEntry where
  minor : CostRow
  moderate : CostRow
  major : CostRow
  descr : String
  commonParts : List String
  deriving DecidableEq, Repr

/-- `RepairKnowledgeBase.REPAIR_COSTS`, keys exactly as written in the source
(three of them contain hyphens). -/
def REPAIR_COSTS : List (String × RepairEntry) :=
  [("front-end-damage",
    ⟨⟨1500, 3500, 3⟩, ⟨3500, 8000, 5⟩, ⟨8000, 15000, 10⟩,
     "Front bumper, grille, headlights, hood damage",
     ["bumper", "grille", "headlights", "hood", "radiator"]⟩),
   ("rear-end-damage",
    ⟨⟨1200, 3000, 3⟩, ⟨3000, 7000, 5⟩, ⟨7000, 14000, 8⟩,
     "Rear bumper, taillights, trunk damage",
     ["rear_bumper", "taillights", "trunk", "exhaust"]⟩),
   ("side-impact-damage",
    ⟨⟨2000, 4000, 4⟩, ⟨4000, 10000, 7⟩, ⟨10000, 25000, 14⟩,
     "Door, fender, side panel damage",
     ["door", "fender", "side_panel", "mirror", "window"]⟩),
   ("dent",
    ⟨⟨150, 500, 1⟩, ⟨500, 1500, 2⟩, ⟨1500, 3000, 3⟩,
     "Dent repair or panel replacement",
     ["panel", "door", "hood", "trunk"]⟩),
   ("scratch",
    ⟨⟨100, 400, 1⟩, ⟨400, 1200, 2⟩, ⟨1200, 2500, 3⟩,
     "Paint scratch repair and refinishing",
     ["paint", "clearcoat", "panel"]⟩),
   ("broken_glass",
    ⟨⟨200, 400, 1⟩, ⟨400, 800, 1⟩, ⟨800, 1500, 2⟩,
     "Window or windshield replacement",
     ["windshield", "window", "side_glass", "rear_glass"]⟩),
   ("crushed",
    ⟨⟨3000, 6000, 7⟩, ⟨6000, 15000, 14⟩, ⟨15000, 30000, 21⟩,
     "Severe structural damage",
     ["frame", "pillar", "roof", "floor_pan"]⟩)]

/-- One `REPAIR_SCENARIOS` element. -/
structure RepairScen where
  name : String
  damageTypes : List String
  severity : String
  costLow : ℕ
  costHigh : ℕ
  repairTimeDays : ℕ
  notes : String
  deriving DecidableEq, Repr

/-- `RepairKnowledgeBase.REPAIR_SCENARIOS`. -/
def REPAIR_SCENARIOS : List RepairScen :=
  [⟨"Minor front bumper scuff", ["scratch", "dent"], "minor", 300, 800, 1,
    "Buffing and touch-up paint usually sufficient"⟩,
   ⟨"Moderate front-end collision", ["front-end-damage", "broken_glass"], "moderate",
    4000, 9000, 5,
    "Bumper replacement, headlight replacement, possible radiator damage"⟩,
   ⟨"Severe side impact", ["side-impact-damage", "crushed", "broken_glass"], "major",
    12000, 28000, 14,
    "Multiple panel replacement, possible frame damage, safety systems check required"⟩,
   ⟨"Parking lot door ding", ["dent"], "minor", 150, 400, 1,
    "PDR (paintless dent repair) preferred method"⟩,
   ⟨"Rear-end collision at low speed", ["rear-end-damage"], "minor", 1500, 3500, 3,
    "Bumper replacement, taillight check, trunk alignment"⟩]

/-- Python dict membership and lookup `cls.REPAIR_COSTS[normalized]`. -/
def lookupRepair (key : String) : Option RepairEntry :=
  (REPAIR_COSTS.find? (fun p => p.1 = key)).map Prod.snd

/-- One `damage_breakdown` element of the repair context. -/
structure BreakdownEntry where
  dtype : String
  severity : String
  costMin : ℕ
  costMax : ℕ
  repairDays : ℕ
  descr : String
  commonParts : List String
  deriving DecidableEq, Repr

/-- One `similar_scenarios` element of the repair context. -/
structure ScenMatch where
  name : String
  costLow : ℕ
  costHigh : ℕ
  repairTime : ℕ
  notes : String
  relevance : ℚ
  deriving DecidableEq, Repr

/-- The dict returned by `get_repair_context`. -/
structure RepairContext where
  damageBreakdown : List BreakdownEntry
  totalCostMin : ℕ
  totalCostMax : ℕ
  estimatedRepairDays : ℕ
  similarScens : List ScenMatch
  recommendations : List String
  deriving DecidableEq, Repr

/-- `sev = severity if severity else "moderate"` (Python treats the empty
string and `None` as falsy). -/
def effectiveSeverity (severity : Option String) : String :=
  match severity with
  | none => "moderate"
  | some s => if s = "" then "moderate" else s

/-- `if sev not in damage_data: sev = "moderate"` — the dict keys of every
entry are the three severity rows plus description and common_parts. -/
def severityKeyOf (sev : String) : String :=
  if sev = "minor" ∨ sev = "moderate" ∨ sev = "major" ∨
     sev = "description" ∨ sev = "common_parts" then sev else "moderate"

/-- `cost_info = damage_data[sev]`; selecting the description or
common_parts key would make the subsequent integer indexing raise a
TypeError in the source, modelled as an error. -/
def selectCostRow (e : RepairEntry) (sev : String) : Except Unit CostRow :=
  if sev = "minor" then .ok e.minor
  else if sev = "moderate" then .ok e.moderate
  else if sev = "major" then .ok e.major
  else .error ()

/-- Loop body of the `for damage_type in damage_types` accumulation
(repair_rag_service.py lines 139..169). -/
def stepType (severity : Option String) (ctx : RepairContext) (damageType : String) :
    Except Unit RepairContext :=
  let normalized := normalizeKey damageType
  match lookupRepair normalized with
  | none => .ok ctx
  | some e => do
    let sev := severityKeyOf (effectiveSeverity severity)
    let row ← selectCostRow e sev
    .ok { ctx with
      damageBreakdown := ctx.damageBreakdown ++
        [⟨damageType, sev, row.cmin, row.cmax, row.avgDays, e.descr, e.commonParts⟩],
      totalCostMin := ctx.totalCostMin + row.cmin,
      totalCostMax := ctx.totalCostMax + row.cmax,
      estimatedRepairDays := max ctx.estimatedRepairDays row.avgDays }

/-- Python `set(...)` of normalized keys, as a first-occurrence list. -/
def normSet (ts : List String) : List String :=
  (ts.map normalizeKey).dedup

/-- Stable insert for descending relevance: an element moves past earlier
elements only when they are strictly more relevant, so ties keep the
original order, as Python's stable `sort(..., reverse=True)` does. -/
def insertDescRel (x : ScenMatch) : List ScenMatch → List ScenMatch
  | [] => [x]
  | y :: ys => if y.relevance > x.relevance then y :: insertDescRel x ys else x :: y :: ys

/-- Stable sort descending by relevance. -/
def sortDescRel : List ScenMatch → List ScenMatch
  | [] => []
  | x :: xs => insertDescRel x (sortDescRel xs)

/-- Scenario matching and relevance sorting
(repair_rag_service.py lines 171..191). -/
def scenMatches (damageTypes : List String) : List ScenMatch :=
  let detected := normSet damageTypes
  sortDescRel (REPAIR_SCENARIOS.filterMap (fun sc =>
    let scTypes := normSet sc.damageTypes
    let overlap := (scTypes.filter (fun t => t ∈ detected)).length
    if overlap > 0 then
      some ⟨sc.name, sc.costLow, sc.costHigh, sc.repairTimeDays, sc.notes,
            (overlap : ℚ) / (scTypes.length : ℚ)⟩
    else none))

/-- Recommendation rules (repair_rag_service.py lines 193..209). -/
def recsOf (ctx : RepairContext) (damageTypes : List String) : List String :=
  (if ctx.totalCostMax > 15000 then
    ["High repair cost - recommend structural inspection"] else []) ++
  (if ctx.estimatedRepairDays > 7 then
    ["Extended repair time - arrange rental vehicle"] else []) ++
  (if ctx.damageBreakdown.any (fun b => pyLowerStr b.dtype = "crushed") then
    ["Severe damage - total loss evaluation recommended"] else []) ++
  (if damageTypes.length ≥ 3 then
    ["Multiple damage areas - comprehensive damage assessment required"] else [])

/-- `RepairKnowledgeBase.get_repair_context`. -/
def getRepairContext (damageTypes : List String) (severity : Option String) :
    Except Unit RepairContext := do
  let ctx ← damageTypes.foldlM (stepType severity) ⟨[], 0, 0, 0, [], []⟩
  let ctx := { ctx with similarScens := scenMatches damageTypes }
  .ok { ctx with recommendations := recsOf ctx damageTypes }

/-- C2: evaluating `get_repair_context(["front-end-damage"], "moderate")`.
The normalizer rewrites the key to `front_end_damage`, but the
`REPAIR_COSTS` key is the hyphenated `front-end-damage`, so the lookup
misses its own reference data: the per-type breakdown is empty and both
totals are 0, not the 3500..8000 / 5-day entry the data table holds for
exactly this case. -/
theorem frontEndModerateLookupEmpty :
    (getRepairContext ["front-end-damage"] (some "moderate")).map
      (fun ctx => (ctx.damageBreakdown, ctx.totalCostMin, ctx.totalCostMax)) =
    .ok ([], 0, 0) := by
  rfl

/-- Control case: a key the normalizer leaves intact is found, so the miss
above is caused solely by the hyphen rewriting. -/
theorem dentModerateLookupFound :
    (getRepairContext ["dent"] (some "moderate")).map
      (fun ctx => (ctx.totalCostMin, ctx.totalCostMax, ctx.estimatedRepairDays)) =
    .ok (500, 1500, 2) := by
  rfl

/- ## Ingest scoring core (ingest_kaggle_data.py lines 226..283)
   The random draws of `generate_fraud_score_from_row` are inputs here;
   the deterministic arithmetic on them is embedded. -/

/-- `composite_score = 0.6 * ml_score + 0.4 * graph_score`, stored as the
`fraud_score` column. -/
def compositeScore (mlScore graphScore : ℚ) : ℚ :=
  6/10 * mlScore + 4/10 * graphScore

/-- Risk level labels used by both scoring sites. -/
inductive RiskLevel
  | low
  | medium
  | high
  | critical
  deriving DecidableEq, Repr

/-- Risk level chosen at ingestion from the composite score
(thresholds 0.8 / 0.6 / 0.3). -/
def ingestRiskLevel (c : ℚ) : RiskLevel :=
  if c ≥ 8/10 then .critical
  else if c ≥ 6/10 then .high
  else if c ≥ 3/10 then .medium
  else .low

/- ## Real-time fraud assessment (claim_review_app.py lines 244..420) -/

/-- The discrepancy/evidence/coverage flags `calculate_fraud_realtime` can
append to its `discrepancy_flags` list, plus the limited-evidence tag the
spec names (the source renders it only as display text). -/
inductive FraudFlag
  | underClaiming
  | overClaiming
  | noEvidence
  | limitedEvidence
  | nearCoverageLimit
  deriving DecidableEq, Repr

/-- One stored `DamageAssessment` row as `calculate_fraud_realtime` reads
it: the two nullable cost columns. -/
structure AssessCost where
  costMin : Option ℚ
  costMax : Option ℚ
  deriving DecidableEq, Repr

/-- Inputs of `calculate_fraud_realtime` after the database reads: claim,
assessments, the optional policy row's coverage limit, and the stored
fraud score row. -/
structure ReviewInput where
  estimatedDamage : ℚ
  assessments : List AssessCost
  coverageLimit : Option ℚ
  storedScore : ℚ
  historicalFlags : List String
  deriving DecidableEq, Repr

/-- `sum(a.estimated_cost_min or 0 for a in assessments)` (line 271). -/
def actualDamageMin (assessments : List AssessCost) : ℚ :=
  (assessments.map (fun a => a.costMin.getD 0)).sum

/-- `sum(a.estimated_cost_max or 0 for a in assessments)` (line 272). -/
def actualDamageMax (assessments : List AssessCost) : ℚ :=
  (assessments.map (fun a => a.costMax.getD 0)).sum

/-- Step 1, lines 284..294: guarded by `actual_damage_min > 0`, an
if/elif pair. -/
def discrepancyStep (claimed dmin dmax : ℚ) : List FraudFlag :=
  if dmin > 0 then
    if claimed < dmin * (1/2) then [.underClaiming]
    else if claimed > dmax * (3/2) then [.overClaiming]
    else []
  else []

/-- Step 2, lines 296..307: only the zero-image case appends a flag; the
`num_images < 2` branch adds display text without a flag. -/
def evidenceStep (numImages : ℕ) : List FraudFlag :=
  if numImages = 0 then [.noEvidence] else []

/-- Step 3, lines 309..321: when a policy row exists the quotient
`claim.estimated_damage / policy.coverage_limit` is computed
unconditionally; a zero limit is a ZeroDivisionError. -/
def coverageStep (claimed : ℚ) (coverageLimit : Option ℚ) : Except Unit (List FraudFlag) :=
  match coverageLimit with
  | none => .ok []
  | some limit =>
    if limit = 0 then .error ()
    else .ok (if claimed / limit > 95/100 then [.nearCoverageLimit] else [])

/-- Recommendation labels. -/
inductive Decision
  | approve
  | manualReview
  | deny
  deriving DecidableEq, Repr

/-- The outcome of `calculate_fraud_realtime`: the newly fired flags, the
full flag list shown (fired ++ historical), the final score, the risk
label and the recommendation. -/
structure FraudOutcome where
  firedFlags : List FraudFlag
  allFlagCount : ℕ
  finalScore : ℚ
  risk : RiskLevel
  recommendation : Decision
  deriving DecidableEq, Repr

/-- `calculate_fraud_realtime` steps 1..6 (claim_review_app.py
lines 284..365). -/
def calculateFraudRealtime (inp : ReviewInput) : Except Unit FraudOutcome := do
  let dmin := actualDamageMin inp.assessments
  let dmax := actualDamageMax inp.assessments
  let dflags := discrepancyStep inp.estimatedDamage dmin dmax
  let eflags := evidenceStep inp.assessments.length
  let cflags ← coverageStep inp.estimatedDamage inp.coverageLimit
  let fired := dflags ++ eflags ++ cflags
  let finalScore :=
    if fired ≠ [] then min (inp.storedScore + 15/100) 1 else inp.storedScore
  let risk :=
    if fired ≠ [] then
      if fired.length ≥ 2 then RiskLevel.critical else RiskLevel.high
    else if finalScore ≥ 7/10 then RiskLevel.high
    else if finalScore ≥ 3/10 then RiskLevel.medium
    else RiskLevel.low
  let recommendation :=
    if fired.length ≥ 2 ∨ finalScore ≥ 8/10 then Decision.deny
    else if fired.length ≥ 1 ∨ finalScore ≥ 1/2 then Decision.manualReview
    else Decision.approve
  .ok ⟨fired, fired.length + inp.historicalFlags.length, finalScore, risk, recommendation⟩

/- ## Characterizations of the pipeline steps -/

theorem discrepancyStep_under (claimed dmin dmax : ℚ) :
    FraudFlag.underClaiming ∈ discrepancyStep claimed dmin dmax ↔
      dmin > 0 ∧ claimed < dmin * (1/2) := by
  unfold discrepancyStep
  split_ifs with h1 h2 h3 <;> simp_all

theorem discrepancyStep_over (claimed dmin dmax : ℚ) :
    FraudFlag.overClaiming ∈ discrepancyStep claimed dmin dmax ↔
      dmin > 0 ∧ ¬claimed < dmin * (1/2) ∧ claimed > dmax * (3/2) := by
  unfold discrepancyStep
  split_ifs with h1 h2 h3 <;> simp_all

theorem discrepancyStep_shape (claimed dmin dmax : ℚ) (f : FraudFlag)
    (hf : f ∈ discrepancyStep claimed dmin dmax) :
    f = .underClaiming ∨ f = .overClaiming := by
  unfold discrepancyStep at hf
  split_ifs at hf <;> simp_all

theorem evidenceStep_mem (numImages : ℕ) :
    FraudFlag.noEvidence ∈ evidenceStep numImages ↔ numImages = 0 := by
  unfold evidenceStep
  split_ifs with h <;> simp_all

theorem evidenceStep_shape (numImages : ℕ) (f : FraudFlag)
    (hf : f ∈ evidenceStep numImages) : f = .noEvidence := by
  unfold evidenceStep at hf
  split_ifs at hf <;> simp_all

theorem coverageStep_ok (claimed : ℚ) (cov : Option ℚ) (l : List FraudFlag)
    (h : coverageStep claimed cov = .ok l) :
    (∀ f ∈ l, f = .nearCoverageLimit) ∧
    (FraudFlag.nearCoverageLimit ∈ l ↔
      ∃ lim, cov = some lim ∧ lim ≠ 0 ∧ claimed / lim > 95/100) := by
  match cov with
  | none =>
    simp only [coverageStep] at h
    cases h
    simp
  | some lim =>
    simp only [coverageStep] at h
    split_ifs at h with h0 hr
    · cases h
      simp_all
    · cases h
      simp_all

theorem calcFraud_ok_elim (inp : ReviewInput) (out : FraudOutcome)
    (h : calculateFraudRealtime inp = .ok out) :
    ∃ cflags,
      coverageStep inp.estimatedDamage inp.coverageLimit = .ok cflags ∧
      out.firedFlags =
        discrepancyStep inp.estimatedDamage (actualDamageMin inp.assessments)
          (actualDamageMax inp.assessments) ++
        evidenceStep inp.assessments.length ++ cflags ∧
      out.finalScore =
        (if out.firedFlags ≠ [] then min (inp.storedScore + 15/100) 1
         else inp.storedScore) ∧
      out.risk =
        (if out.firedFlags ≠ [] then
           if out.firedFlags.length ≥ 2 then RiskLevel.critical else RiskLevel.high
         else if out.finalScore ≥ 7/10 then RiskLevel.high
         else if out.finalScore ≥ 3/10 then RiskLevel.medium
         else RiskLevel.low) ∧
      out.recommendation =
        (if out.firedFlags.length ≥ 2 ∨ out.finalScore ≥ 8/10 then Decision.deny
         else if out.firedFlags.length ≥ 1 ∨ out.finalScore ≥ 1/2 then
           Decision.manualReview
         else Decision.approve) := by
  unfold calculateFraudRealtime at h
  cases hc : coverageStep inp.estimatedDamage inp.coverageLimit with
  | error e =>
    rw [hc] at h
    cases h
  | ok cflags =>
    rw [hc] at h
    simp only [bind, Except.bind] at h
    cases h
    exact ⟨cflags, rfl, rfl, rfl, rfl, rfl⟩

/-- Membership in the fired-flags list splits over the three steps. -/
theorem mem_firedFlags (inp : ReviewInput) (out : FraudOutcome) (cflags : List FraudFlag)
    (hf : out.firedFlags =
      discrepancyStep inp.estimatedDamage (actualDamageMin inp.assessments)
        (actualDamageMax inp.assessments) ++
      evidenceStep inp.assessments.length ++ cflags) (f : FraudFlag) :
    f ∈ out.firedFlags ↔
      f ∈ discrepancyStep inp.estimatedDamage (actualDamageMin inp.assessments)
            (actualDamageMax inp.assessments) ∨
      f ∈ evidenceStep inp.assessments.length ∨ f ∈ cflags := by
  rw [hf]
  simp [List.mem_append, or_assoc]

/-- C1: when the stored score is the ingest composite
`0.6 * ml + 0.4 * graph`, the real-time final score is that base when no
discrepancy/evidence/coverage flag fired, and `min(base + 0.15, 1)` when
at least one fired. -/
theorem finalScore_escalation (inp : ReviewInput) (out : FraudOutcome)
    (mlScore graphScore : ℚ)
    (hstored : inp.storedScore = compositeScore mlScore graphScore)
    (h : calculateFraudRealtime inp = .ok out) :
    out.finalScore =
      if out.firedFlags = [] then 6/10 * mlScore + 4/10 * graphScore
      else min (6/10 * mlScore + 4/10 * graphScore + 15/100) 1 := by
  obtain ⟨cflags, hc, hf, hfs, hr, hrec⟩ := calcFraud_ok_elim inp out h
  rw [hfs, hstored]
  unfold compositeScore
  by_cases he : out.firedFlags = [] <;> simp [he]

theorem finalScore_escalation_witness :
    (⟨[], 0, 1/2, .medium, .manualReview⟩ : FraudOutcome).finalScore =
      if (⟨[], 0, 1/2, .medium, .manualReview⟩ : FraudOutcome).firedFlags = []
      then 6/10 * (1/2) + 4/10 * (1/2)
      else min (6/10 * (1/2) + 4/10 * (1/2) + 15/100) 1 :=
  finalScore_escalation ⟨150, [⟨some 100, some 200⟩], none, 1/2, []⟩
    ⟨[], 0, 1/2, .medium, .manualReview⟩ (1/2) (1/2)
    (by norm_num [compositeScore])
    (by norm_num [calculateFraudRealtime, coverageStep, discrepancyStep, evidenceStep,
      actualDamageMin, actualDamageMax, bind, Except.bind])

/-- C3 counterexample: one analyzed image (analyzedCount = 1 > 0) whose
stored cost range is [0, 0], with claimed amount 100 > 0 * 1.5.  The claim
as stated demands an OverClaiming flag, but the source guards Step 1 by
`actual_damage_min > 0`, not by `analyzedCount > 0`, so nothing fires. -/
theorem overClaimingNotFlaggedOnZeroMin :
    calculateFraudRealtime ⟨100, [⟨some 0, some 0⟩], none, 1/2, []⟩ =
      .ok ⟨[], 0, 1/2, .medium, .manualReview⟩ := by
  norm_num [calculateFraudRealtime, coverageStep, discrepancyStep, evidenceStep,
    actualDamageMin, actualDamageMax, bind, Except.bind]

/-- C3 amended: the discrepancy step runs only when the summed cost
minimum is positive; then UnderClaiming fires iff
`claimed < totalCost.min * 0.5`, and OverClaiming fires iff UnderClaiming
did not and `claimed > totalCost.max * 1.5`.  When `totalCost.min <= 0`
(in particular with zero analyzed images) neither flag fires. -/
theorem discrepancyFlagRule (inp : ReviewInput) (out : FraudOutcome)
    (h : calculateFraudRealtime inp = .ok out) :
    (FraudFlag.underClaiming ∈ out.firedFlags ↔
       actualDamageMin inp.assessments > 0 ∧
       inp.estimatedDamage < actualDamageMin inp.assessments * (1/2)) ∧
    (FraudFlag.overClaiming ∈ out.firedFlags ↔
       actualDamageMin inp.assessments > 0 ∧
       ¬inp.estimatedDamage < actualDamageMin inp.assessments * (1/2) ∧
       inp.estimatedDamage > actualDamageMax inp.assessments * (3/2)) := by
  obtain ⟨cflags, hc, hf, -, -, -⟩ := calcFraud_ok_elim inp out h
  have hcov := coverageStep_ok _ _ _ hc
  have hme := mem_firedFlags inp out cflags hf
  constructor
  · rw [hme, discrepancyStep_under]
    have h1 : FraudFlag.underClaiming ∉ evidenceStep inp.assessments.length := by
      intro hmem
      cases evidenceStep_shape _ _ hmem
    have h2 : FraudFlag.underClaiming ∉ cflags := by
      intro hmem
      cases hcov.1 _ hmem
    simp [h1, h2]
  · rw [hme, discrepancyStep_over]
    have h1 : FraudFlag.overClaiming ∉ evidenceStep inp.assessments.length := by
      intro hmem
      cases evidenceStep_shape _ _ hmem
    have h2 : FraudFlag.overClaiming ∉ cflags := by
      intro hmem
      cases hcov.1 _ hmem
    simp [h1, h2]

theorem discrepancyFlagRule_witness :
    (FraudFlag.underClaiming ∈
        (⟨[], 0, 1/2, .medium, .manualReview⟩ : FraudOutcome).firedFlags ↔
      actualDamageMin [⟨some 0, some 0⟩] > 0 ∧
      (100 : ℚ) < actualDamageMin [⟨some 0, some 0⟩] * (1/2)) ∧
    (FraudFlag.overClaiming ∈
        (⟨[], 0, 1/2, .medium, .manualReview⟩ : FraudOutcome).firedFlags ↔
      actualDamageMin [⟨some 0, some 0⟩] > 0 ∧
      ¬(100 : ℚ) < actualDamageMin [⟨some 0, some 0⟩] * (1/2) ∧
      (100 : ℚ) > actualDamageMax [⟨some 0, some 0⟩] * (3/2)) :=
  discrepancyFlagRule ⟨100, [⟨some 0, some 0⟩], none, 1/2, []⟩
    ⟨[], 0, 1/2, .medium, .manualReview⟩
    (by norm_num [calculateFraudRealtime, coverageStep, discrepancyStep, evidenceStep,
      actualDamageMin, actualDamageMax, bind, Except.bind])

/-- C4: the recommendation is deny iff at least two flags fired or the
final score reaches 0.8; otherwise manual review iff at least one flag
fired or the final score reaches 0.5; otherwise approve. -/
theorem recommendationRule (inp : ReviewInput) (out : FraudOutcome)
    (h : calculateFraudRealtime inp = .ok out) :
    (out.recommendation = Decision.deny ↔
       out.firedFlags.length ≥ 2 ∨ out.finalScore ≥ 8/10) ∧
    (out.recommendation = Decision.manualReview ↔
       ¬(out.firedFlags.length ≥ 2 ∨ out.finalScore ≥ 8/10) ∧
       (out.firedFlags.length ≥ 1 ∨ out.finalScore ≥ 1/2)) ∧
    (out.recommendation = Decision.approve ↔
       ¬(out.firedFlags.length ≥ 2 ∨ out.finalScore ≥ 8/10) ∧
       ¬(out.firedFlags.length ≥ 1 ∨ out.finalScore ≥ 1/2)) := by
  obtain ⟨cflags, -, -, -, -, hrec⟩ := calcFraud_ok_elim inp out h
  rw [hrec]
  split_ifs with h1 h2 <;> simp_all

theorem recommendationRule_witness :
    ((⟨[], 0, 1/2, .medium, .manualReview⟩ : FraudOutcome).recommendation =
        Decision.deny ↔
      (⟨[], 0, 1/2, .medium, .manualReview⟩ : FraudOutcome).firedFlags.length ≥ 2 ∨
      (⟨[], 0, 1/2, .medium, .manualReview⟩ : FraudOutcome).finalScore ≥ 8/10) ∧
    ((⟨[], 0, 1/2, .medium, .manualReview⟩ : FraudOutcome).recommendation =
        Decision.manualReview ↔
      ¬((⟨[], 0, 1/2, .medium, .manualReview⟩ : FraudOutcome).firedFlags.length ≥ 2 ∨
        (⟨[], 0, 1/2, .medium, .manualReview⟩ : FraudOutcome).finalScore ≥ 8/10) ∧
      ((⟨[], 0, 1/2, .medium, .manualReview⟩ : FraudOutcome).firedFlags.length ≥ 1 ∨
       (⟨[], 0, 1/2, .medium, .manualReview⟩ : FraudOutcome).finalScore ≥ 1/2)) ∧
    ((⟨[], 0, 1/2, .medium, .manualReview⟩ : FraudOutcome).recommendation =
        Decision.approve ↔
      ¬((⟨[], 0, 1/2, .medium, .manualReview⟩ : FraudOutcome).firedFlags.length ≥ 2 ∨
        (⟨[], 0, 1/2, .medium, .manualReview⟩ : FraudOutcome).finalScore ≥ 8/10) ∧
      ¬((⟨[], 0, 1/2, .medium, .manualReview⟩ : FraudOutcome).firedFlags.length ≥ 1 ∨
        (⟨[], 0, 1/2, .medium, .manualReview⟩ : FraudOutcome).finalScore ≥ 1/2)) :=
  recommendationRule ⟨150, [⟨some 100, some 200⟩], none, 1/2, []⟩
    ⟨[], 0, 1/2, .medium, .manualReview⟩
    (by norm_num [calculateFraudRealtime, coverageStep, discrepancyStep, evidenceStep,
      actualDamageMin, actualDamageMax, bind, Except.bind])

/-- C5 counterexample: with no fired flags and a final score of 0.65 the
source labels the claim MEDIUM (its no-flag thresholds are 0.7 / 0.3),
while the claimed four-way rule would label any score in [0.6, 0.8)
high. -/
theorem riskTierMediumAt065 :
    calculateFraudRealtime
        ⟨300, [⟨some 100, some 200⟩, ⟨some 100, some 200⟩], none, 65/100, []⟩ =
      .ok ⟨[], 0, 65/100, .medium, .manualReview⟩ := by
  norm_num [calculateFraudRealtime, coverageStep, discrepancyStep, evidenceStep,
    actualDamageMin, actualDamageMax, bind, Except.bind]

/-- The ingest-side risk tier is the four-way 0.8 / 0.6 / 0.3 rule. -/
theorem ingestRiskLevel_iff (c : ℚ) :
    (ingestRiskLevel c = .critical ↔ c ≥ 8/10) ∧
    (ingestRiskLevel c = .high ↔ 6/10 ≤ c ∧ c < 8/10) ∧
    (ingestRiskLevel c = .medium ↔ 3/10 ≤ c ∧ c < 6/10) ∧
    (ingestRiskLevel c = .low ↔ c < 3/10) := by
  unfold ingestRiskLevel
  split_ifs with h1 h2 h3
  · exact ⟨⟨fun _ => h1, fun _ => rfl⟩,
      ⟨fun hh => by simp at hh, fun hh => absurd hh.2 (not_lt.mpr h1)⟩,
      ⟨fun hh => by simp at hh, fun hh => absurd hh.2 (not_lt.mpr (by linarith))⟩,
      ⟨fun hh => by simp at hh, fun hh => absurd hh (not_lt.mpr (by linarith))⟩⟩
  · push_neg at h1
    exact ⟨⟨fun hh => by simp at hh, fun hh => absurd hh (not_le.mpr h1)⟩,
      ⟨fun _ => ⟨h2, h1⟩, fun _ => rfl⟩,
      ⟨fun hh => by simp at hh, fun hh => absurd hh.2 (not_lt.mpr h2)⟩,
      ⟨fun hh => by simp at hh, fun hh => absurd hh (not_lt.mpr (by linarith))⟩⟩
  · push_neg at h1 h2
    exact ⟨⟨fun hh => by simp at hh, fun hh => absurd hh (not_le.mpr h1)⟩,
      ⟨fun hh => by simp at hh, fun hh => absurd hh.1 (not_le.mpr h2)⟩,
      ⟨fun _ => ⟨h3, h2⟩, fun _ => rfl⟩,
      ⟨fun hh => by simp at hh, fun hh => absurd hh (not_lt.mpr h3)⟩⟩
  · push_neg at h1 h2 h3
    exact ⟨⟨fun hh => by simp at hh, fun hh => absurd hh (not_le.mpr h1)⟩,
      ⟨fun hh => by simp at hh, fun hh => absurd hh.1 (not_le.mpr h2)⟩,
      ⟨fun hh => by simp at hh, fun hh => absurd hh.1 (not_le.mpr h3)⟩,
      ⟨fun _ => h3, fun _ => rfl⟩⟩

/-- The no-flag branch of the real-time risk label, characterized. -/
theorem reviewNoFlagRisk_iff (x : ℚ) :
    ((if x ≥ 7/10 then RiskLevel.high
      else if x ≥ 3/10 then RiskLevel.medium else RiskLevel.low) = RiskLevel.critical
        ↔ False) ∧
    ((if x ≥ 7/10 then RiskLevel.high
      else if x ≥ 3/10 then RiskLevel.medium else RiskLevel.low) = RiskLevel.high
        ↔ x ≥ 7/10) ∧
    ((if x ≥ 7/10 then RiskLevel.high
      else if x ≥ 3/10 then RiskLevel.medium else RiskLevel.low) = RiskLevel.medium
        ↔ 3/10 ≤ x ∧ x < 7/10) ∧
    ((if x ≥ 7/10 then RiskLevel.high
      else if x ≥ 3/10 then RiskLevel.medium else RiskLevel.low) = RiskLevel.low
        ↔ x < 3/10) := by
  split_ifs with h1 h2
  · exact ⟨⟨fun hh => by simp at hh, fun hh => hh.elim⟩,
      ⟨fun _ => h1, fun _ => rfl⟩,
      ⟨fun hh => by simp at hh, fun hh => absurd hh.2 (not_lt.mpr h1)⟩,
      ⟨fun hh => by simp at hh, fun hh => absurd hh (not_lt.mpr (by linarith))⟩⟩
  · push_neg at h1
    exact ⟨⟨fun hh => by simp at hh, fun hh => hh.elim⟩,
      ⟨fun hh => by simp at hh, fun hh => absurd hh (not_le.mpr h1)⟩,
      ⟨fun _ => ⟨h2, h1⟩, fun _ => rfl⟩,
      ⟨fun hh => by simp at hh, fun hh => absurd hh (not_lt.mpr h2)⟩⟩
  · push_neg at h1 h2
    exact ⟨⟨fun hh => by simp at hh, fun hh => hh.elim⟩,
      ⟨fun hh => by simp at hh, fun hh => absurd hh (not_le.mpr h1)⟩,
      ⟨fun hh => by simp at hh, fun hh => absurd hh.1 (not_le.mpr h2)⟩,
      ⟨fun _ => h2, fun _ => rfl⟩⟩

/-- C5 amended: the ingest path labels the composite score by the
four-way 0.8 / 0.6 / 0.3 rule, but the real-time path does not follow the
claimed rule: with fired flags the tier comes from the flag count alone
(critical iff at least two flags, else high), and with no fired flags the
thresholds are 0.7 / 0.3 with no critical tier. -/
theorem riskTierRule (c : ℚ) (inp : ReviewInput) (out : FraudOutcome)
    (h : calculateFraudRealtime inp = .ok out) :
    ((ingestRiskLevel c = .critical ↔ c ≥ 8/10) ∧
     (ingestRiskLevel c = .high ↔ 6/10 ≤ c ∧ c < 8/10) ∧
     (ingestRiskLevel c = .medium ↔ 3/10 ≤ c ∧ c < 6/10) ∧
     (ingestRiskLevel c = .low ↔ c < 3/10)) ∧
    (out.firedFlags ≠ [] →
      out.risk =
        (if out.firedFlags.length ≥ 2 then RiskLevel.critical else RiskLevel.high)) ∧
    (out.firedFlags = [] →
      ((out.risk = RiskLevel.critical ↔ False) ∧
       (out.risk = RiskLevel.high ↔ out.finalScore ≥ 7/10) ∧
       (out.risk = RiskLevel.medium ↔
         3/10 ≤ out.finalScore ∧ out.finalScore < 7/10) ∧
       (out.risk = RiskLevel.low ↔ out.finalScore < 3/10))) := by
  obtain ⟨cflags, -, -, -, hr, -⟩ := calcFraud_ok_elim inp out h
  refine ⟨ingestRiskLevel_iff c, ?_, ?_⟩
  · intro he
    rw [hr]
    simp [he]
  · intro he
    rw [hr]
    simp only [he, ne_eq, not_true_eq_false, if_false, ite_false]
    simpa using reviewNoFlagRisk_iff out.finalScore

theorem riskTierRule_witness :
    (((ingestRiskLevel (1/2) = .critical ↔ (1/2 : ℚ) ≥ 8/10) ∧
      (ingestRiskLevel (1/2) = .high ↔ (6/10 : ℚ) ≤ 1/2 ∧ (1/2 : ℚ) < 8/10) ∧
      (ingestRiskLevel (1/2) = .medium ↔ (3/10 : ℚ) ≤ 1/2 ∧ (1/2 : ℚ) < 6/10) ∧
      (ingestRiskLevel (1/2) = .low ↔ (1/2 : ℚ) < 3/10)) ∧
     ((⟨[], 0, 65/100, .medium, .manualReview⟩ : FraudOutcome).firedFlags ≠ [] →
       (⟨[], 0, 65/100, .medium, .manualReview⟩ : FraudOutcome).risk =
         (if (⟨[], 0, 65/100, .medium, .manualReview⟩ : FraudOutcome).firedFlags.length ≥ 2
          then RiskLevel.critical else RiskLevel.high)) ∧
     ((⟨[], 0, 65/100, .medium, .manualReview⟩ : FraudOutcome).firedFlags = [] →
       (((⟨[], 0, 65/100, .medium, .manualReview⟩ : FraudOutcome).risk =
           RiskLevel.critical ↔ False) ∧
        ((⟨[], 0, 65/100, .medium, .manualReview⟩ : FraudOutcome).risk =
           RiskLevel.high ↔
          (⟨[], 0, 65/100, .medium, .manualReview⟩ : FraudOutcome).finalScore ≥ 7/10) ∧
        ((⟨[], 0, 65/100, .medium, .manualReview⟩ : FraudOutcome).risk =
           RiskLevel.medium ↔
          3/10 ≤ (⟨[], 0, 65/100, .medium, .manualReview⟩ : FraudOutcome).finalScore ∧
          (⟨[], 0, 65/100, .medium, .manualReview⟩ : FraudOutcome).finalScore < 7/10) ∧
        ((⟨[], 0, 65/100, .medium, .manualReview⟩ : FraudOutcome).risk =
           RiskLevel.low ↔
          (⟨[], 0, 65/100, .medium, .manualReview⟩ : FraudOutcome).finalScore < 3/10)))) :=
  riskTierRule (1/2)
    ⟨300, [⟨some 100, some 200⟩, ⟨some 100, some 200⟩], none, 65/100, []⟩
    ⟨[], 0, 65/100, .medium, .manualReview⟩
    (by norm_num [calculateFraudRealtime, coverageStep, discrepancyStep, evidenceStep,
      actualDamageMin, actualDamageMax, bind, Except.bind])

/-- C6 counterexample: a policy row with coverage limit 0.  The claim says
the coverage check is skipped without computing the quotient; the source
computes `claim.estimated_damage / policy.coverage_limit` whenever a
policy row exists, so a zero limit is a ZeroDivisionError and the whole
evaluation fails instead of proceeding flag-free. -/
theorem coverageZeroLimitRaises :
    calculateFraudRealtime
        ⟨100, [⟨some 100, some 200⟩, ⟨some 100, some 200⟩], some 0, 1/2, []⟩ =
      .error () := by
  norm_num [calculateFraudRealtime, coverageStep, discrepancyStep, evidenceStep,
    actualDamageMin, actualDamageMax, bind, Except.bind]

/-- C6 amended: whenever a policy row exists the quotient is computed; on
every evaluation that completes, NearCoverageLimit fires iff a policy row
exists with a nonzero limit and `claimed / limit > 0.95` (a negative
limit is not excluded); a zero limit makes the evaluation raise rather
than skip. -/
theorem nearCoverageFlagRule (inp : ReviewInput) (out : FraudOutcome)
    (h : calculateFraudRealtime inp = .ok out) :
    FraudFlag.nearCoverageLimit ∈ out.firedFlags ↔
      ∃ lim, inp.coverageLimit = some lim ∧ lim ≠ 0 ∧
        inp.estimatedDamage / lim > 95/100 := by
  obtain ⟨cflags, hc, hf, -, -, -⟩ := calcFraud_ok_elim inp out h
  have hcov := coverageStep_ok _ _ _ hc
  have hme := mem_firedFlags inp out cflags hf .nearCoverageLimit
  rw [hme]
  have h1 : FraudFlag.nearCoverageLimit ∉
      discrepancyStep inp.estimatedDamage (actualDamageMin inp.assessments)
        (actualDamageMax inp.assessments) := by
    intro hmem
    rcases discrepancyStep_shape _ _ _ _ hmem with hh | hh <;> cases hh
  have h2 : FraudFlag.nearCoverageLimit ∉ evidenceStep inp.assessments.length := by
    intro hmem
    cases evidenceStep_shape _ _ hmem
  simp [h1, h2, hcov.2]

theorem nearCoverageFlagRule_witness :
    (FraudFlag.nearCoverageLimit ∈
        (⟨[.nearCoverageLimit], 1, 65/100, .high, .manualReview⟩ : FraudOutcome).firedFlags ↔
      ∃ lim, (some (100 : ℚ)) = some lim ∧ lim ≠ 0 ∧ (100 : ℚ) / lim > 95/100) :=
  nearCoverageFlagRule
    ⟨100, [⟨some 100, some 200⟩, ⟨some 100, some 200⟩], some 100, 1/2, []⟩
    ⟨[.nearCoverageLimit], 1, 65/100, .high, .manualReview⟩
    (by norm_num [calculateFraudRealtime, coverageStep, discrepancyStep, evidenceStep,
      actualDamageMin, actualDamageMax, bind, Except.bind])

/-- C7 counterexample: exactly one stored assessment, so the image count 1
lies strictly between 0 and 2; the claim demands a LimitedEvidence flag,
but the source only prints a note in that branch and appends nothing to
the flag list, which stays empty. -/
theorem limitedEvidenceNotFlagged :
    calculateFraudRealtime ⟨150, [⟨some 100, some 200⟩], none, 1/5, []⟩ =
      .ok ⟨[], 0, 1/5, .low, .approve⟩ := by
  norm_num [calculateFraudRealtime, coverageStep, discrepancyStep, evidenceStep,
    actualDamageMin, actualDamageMax, bind, Except.bind]

/-- C7 amended: NoEvidence fires iff the assessment count is 0, regardless
of the model scores; LimitedEvidence is never appended to the flag list
for any input. -/
theorem evidenceFlagRule (inp : ReviewInput) (out : FraudOutcome)
    (h : calculateFraudRealtime inp = .ok out) :
    (FraudFlag.noEvidence ∈ out.firedFlags ↔ inp.assessments.length = 0) ∧
    FraudFlag.limitedEvidence ∉ out.firedFlags := by
  obtain ⟨cflags, hc, hf, -, -, -⟩ := calcFraud_ok_elim inp out h
  have hcov := coverageStep_ok _ _ _ hc
  constructor
  · have hme := mem_firedFlags inp out cflags hf .noEvidence
    rw [hme, evidenceStep_mem]
    have h1 : FraudFlag.noEvidence ∉
        discrepancyStep inp.estimatedDamage (actualDamageMin inp.assessments)
          (actualDamageMax inp.assessments) := by
      intro hmem
      rcases discrepancyStep_shape _ _ _ _ hmem with hh | hh <;> cases hh
    have h2 : FraudFlag.noEvidence ∉ cflags := by
      intro hmem
      cases hcov.1 _ hmem
    simp [h1, h2]
  · rw [mem_firedFlags inp out cflags hf .limitedEvidence]
    have h1 : FraudFlag.limitedEvidence ∉
        discrepancyStep inp.estimatedDamage (actualDamageMin inp.assessments)
          (actualDamageMax inp.assessments) := by
      intro hmem
      rcases discrepancyStep_shape _ _ _ _ hmem with hh | hh <;> cases hh
    have h2 : FraudFlag.limitedEvidence ∉ evidenceStep inp.assessments.length := by
      intro hmem
      cases evidenceStep_shape _ _ hmem
    have h3 : FraudFlag.limitedEvidence ∉ cflags := by
      intro hmem
      cases hcov.1 _ hmem
    simp [h1, h2, h3]

theorem evidenceFlagRule_witness :
    ((FraudFlag.noEvidence ∈
        (⟨[.noEvidence], 1, 65/100, .high, .manualReview⟩ : FraudOutcome).firedFlags ↔
      ([] : List AssessCost).length = 0) ∧
     FraudFlag.limitedEvidence ∉
       (⟨[.noEvidence], 1, 65/100, .high, .manualReview⟩ : FraudOutcome).firedFlags) :=
  evidenceFlagRule ⟨100, [], none, 1/2, []⟩
    ⟨[.noEvidence], 1, 65/100, .high, .manualReview⟩
    (by norm_num [calculateFraudRealtime, coverageStep, discrepancyStep, evidenceStep,
      actualDamageMin, actualDamageMax, bind, Except.bind])

/- ## Damage assessment models and image analyzer
   (app/models/damage_assessment.py, app/services/damage/image_analyzer.py) -/

/-- `DamageType` enum. -/
inductive DamageType
  | scratch
  | dent
  | crack
  | broken
  | shattered
  | crushed
  | burned
  | waterDamage
  | unknown
  deriving DecidableEq, Repr

/-- `DamageSeverity` enum. -/
inductive DamageSeverity
  | minor
  | moderate
  | major
  | totalLoss
  deriving DecidableEq, Repr

/-- `severity_map.get(analysis.get('severity'), DamageSeverity.MODERATE)`
(image_analyzer.py lines 73..82); a missing or unrecognized severity
string falls back to MODERATE. -/
def mapSeverity (s : Option String) : DamageSeverity :=
  match s with
  | some "MINOR" => .minor
  | some "MODERATE" => .moderate
  | some "MAJOR" => .major
  | some "TOTAL_LOSS" => .totalLoss
  | _ => .moderate

/-- The `damage_type_map` dict (image_analyzer.py lines 86..96). -/
def damageTypeMap (s : String) : Option DamageType :=
  if s = "scratch" then some .scratch
  else if s = "dent" then some .dent
  else if s = "crack" then some .crack
  else if s = "broken" then some .broken
  else if s = "shattered" then some .shattered
  else if s = "crushed" then some .crushed
  else if s = "burned" then some .burned
  else if s = "water damage" then some .waterDamage
  else if s = "water_damage" then some .waterDamage
  else none

/-- The first-match-with-break loop selecting `primary_damage_type`
(image_analyzer.py lines 98..102): DENT by default, else the first
detected type whose lowercased form is in the map. -/
def primaryDamageType : List String → DamageType
  | [] => .dent
  | dt :: rest =>
    match damageTypeMap (pyLowerStr dt) with
    | some t => t
    | none => primaryDamageType rest

/-- C10: the stored assessment carries one damage type: the first detected
type (in detection order) whose lowercased form is recognized, defaulting
to DENT when none is or the list is empty; and a severity string outside
MINOR/MODERATE/MAJOR/TOTAL_LOSS (or a missing one) is stored as
MODERATE. -/
theorem primaryTypeAndSeverityRule (damageTypes : List String) (s : String)
    (hs : s ≠ "MINOR" ∧ s ≠ "MODERATE" ∧ s ≠ "MAJOR" ∧ s ≠ "TOTAL_LOSS") :
    primaryDamageType damageTypes =
      (((damageTypes.find? (fun dt => (damageTypeMap (pyLowerStr dt)).isSome)).bind
          (fun dt => damageTypeMap (pyLowerStr dt))).getD .dent) ∧
    mapSeverity (some s) = .moderate ∧ mapSeverity none = .moderate := by
  obtain ⟨h1, h2, h3, h4⟩ := hs
  refine ⟨?_, ?_, rfl⟩
  · induction damageTypes with
    | nil => rfl
    | cons dt rest ih =>
      by_cases hd : (damageTypeMap (pyLowerStr dt)).isSome
      · obtain ⟨t, ht⟩ := Option.isSome_iff_exists.mp hd
        simp [primaryDamageType, List.find?, hd, ht]
      · have hnone : damageTypeMap (pyLowerStr dt) = none :=
          Option.not_isSome_iff_eq_none.mp hd
        simp [primaryDamageType, List.find?, hd, hnone, ih]
  · simp only [mapSeverity]
    split
    · simp_all
    · simp_all
    · simp_all
    · simp_all
    · rfl

theorem primaryTypeAndSeverityRule_witness :
    (primaryDamageType ["glass", "Dent", "crushed"] =
      ((((["glass", "Dent", "crushed"]).find?
          (fun dt => (damageTypeMap (pyLowerStr dt)).isSome)).bind
          (fun dt => damageTypeMap (pyLowerStr dt))).getD .dent) ∧
     mapSeverity (some "SEVERE") = .moderate ∧ mapSeverity none = .moderate) :=
  primaryTypeAndSeverityRule ["glass", "Dent", "crushed"] "SEVERE"
    (by refine ⟨?_, ?_, ?_, ?_⟩ <;> decide)

/-- `DamageType.value` strings. -/
def damageTypeValue : DamageType → String
  | .scratch => "scratch"
  | .dent => "dent"
  | .crack => "crack"
  | .broken => "broken"
  | .shattered => "shattered"
  | .crushed => "crushed"
  | .burned => "burned"
  | .waterDamage => "water_damage"
  | .unknown => "unknown"

/-- One stored `DamageAssessment` row as `get_assessment_summary` reads it. -/
structure AssessRecord where
  damageType : DamageType
  severity : DamageSeverity
  costMin : ℚ
  costMax : ℚ
  affectedAreas : List String
  reviewed : Bool
  deriving DecidableEq, Repr

/-- The `severity_order` dict (image_analyzer.py lines 162..167). -/
def severityOrder : DamageSeverity → ℕ
  | .minor => 1
  | .moderate => 2
  | .major => 3
  | .totalLoss => 4

/-- Python `max(assessments, key=...)`: the first element whose key is
maximal (later elements replace only when strictly greater). -/
def pyMaxBySeverity (a : AssessRecord) (rest : List AssessRecord) : AssessRecord :=
  rest.foldl
    (fun best r =>
      if severityOrder r.severity > severityOrder best.severity then r else best) a

/-- The dict returned by `get_assessment_summary`; the empty-input branch
has no avg or reviewed keys, modelled with `none`. -/
structure AssessSummary where
  assessmentCount : ℕ
  maxSeverity : Option DamageSeverity
  totalMin : ℚ
  totalMax : ℚ
  totalAvg : Option ℚ
  allDamageTypes : Finset String
  allAffectedAreas : Finset String
  reviewedAll : Option Bool
  deriving DecidableEq

/-- `DamageAssessmentService.get_assessment_summary`
(image_analyzer.py lines 148..193). -/
def getAssessmentSummary (assessments : List AssessRecord) : AssessSummary :=
  match assessments with
  | [] => ⟨0, none, 0, 0, none, ∅, ∅, none⟩
  | a :: rest =>
    let totalMin := ((a :: rest).map (fun r => r.costMin)).sum
    let totalMax := ((a :: rest).map (fun r => r.costMax)).sum
    ⟨(a :: rest).length,
     some (pyMaxBySeverity a rest).severity,
     totalMin,
     totalMax,
     some ((totalMin + totalMax) / 2),
     (a :: rest).foldl (fun acc r => insert (damageTypeValue r.damageType) acc) ∅,
     (a :: rest).foldl (fun acc r => acc ∪ r.affectedAreas.toFinset) ∅,
     some ((a :: rest).all (fun r => r.reviewed))⟩

/- ## Vision aggregation (vision_analyzer.py lines 237..300) -/

/-- One per-image analysis dict as `_aggregate_analyses` reads it; absent
keys are modelled by their `.get` defaults. -/
structure VisionAnalysis where
  success : Bool
  damageTypes : List String
  severity : String
  severityScore : ℚ
  affectedAreas : List String
  costMin : ℚ
  costMax : ℚ
  deriving DecidableEq, Repr

/-- The aggregated analysis dict (notes omitted). -/
structure VisionAggregate where
  damageTypes : Finset String
  severity : String
  severityScore : ℚ
  affectedAreas : Finset String
  costMin : ℚ
  costMax : ℚ
  imageCount : ℕ
  deriving DecidableEq

/-- The `severity_order` dict of `_aggregate_analyses`; unknown strings
rank 0. -/
def sevOrderStr (s : String) : ℕ :=
  if s = "MINOR" then 1
  else if s = "MODERATE" then 2
  else if s = "MAJOR" then 3
  else if s = "TOTAL_LOSS" then 4
  else 0

/-- `VisionAnalyzer._aggregate_analyses`: failure on empty or all-failed
input; unions for types and areas; max severity; and — unlike every other
aggregation site — the elementwise MAXIMUM of the per-image cost ranges
(`min_cost = max(...)`, `max_cost = max(...)`, lines 279..281). -/
def aggregateAnalyses (analyses : List VisionAnalysis) : Option VisionAggregate :=
  if analyses.isEmpty then none
  else
    match analyses.filter (fun a => a.success) with
    | [] => none
    | s :: rest =>
      some
        ⟨(s :: rest).foldl (fun acc a => acc ∪ a.damageTypes.toFinset) ∅,
         (s :: rest).foldl
           (fun m a => if sevOrderStr a.severity > sevOrderStr m then a.severity else m)
           "MINOR",
         (s :: rest).foldl (fun m a => max m a.severityScore) 0,
         (s :: rest).foldl (fun acc a => acc ∪ a.affectedAreas.toFinset) ∅,
         (rest.map (fun a => a.costMin)).foldl max s.costMin,
         (rest.map (fun a => a.costMax)).foldl max s.costMax,
         analyses.length⟩

/-- C8 counterexample: two successful analyses with cost ranges
[100, 200] and [200, 400].  The claimed elementwise-sum aggregation would
give [300, 600]; `_aggregate_analyses` returns the elementwise maximum
[200, 400]. -/
theorem visionAggregateTakesMaxNotSum :
    (aggregateAnalyses
        [⟨true, [], "MODERATE", 50, [], 100, 200⟩,
         ⟨true, [], "MODERATE", 50, [], 200, 400⟩]).map
      (fun r => (r.costMin, r.costMax)) = some (200, 400) ∧
    (200 : ℚ) ≠ 100 + 200 := by
  constructor
  · norm_num [aggregateAnalyses, List.filter]
  · norm_num

/-- Monotone comparison of the two Python max-folds over the same list. -/
theorem foldlMaxCost_le (l : List VisionAnalysis) :
    ∀ a b : ℚ, a ≤ b → (∀ x ∈ l, x.costMin ≤ x.costMax) →
      (l.map (fun x => x.costMin)).foldl max a ≤
        (l.map (fun x => x.costMax)).foldl max b := by
  induction l with
  | nil =>
    intro a b hab _
    simpa using hab
  | cons x xs ih =>
    intro a b hab hall
    simp only [List.map_cons, List.foldl_cons]
    exact ih _ _ (max_le_max hab (hall x (by simp)))
      (fun y hy => hall y (by simp [hy]))

/-- C8 amended: the stored-assessment summary and the real-time pipeline
aggregate costs as elementwise sums, with min ≤ max whenever each record
satisfies min ≤ max; the vision-side `_aggregate_analyses` instead takes
the elementwise maximum of the per-image ranges (still yielding
min ≤ max under the same per-record hypothesis), not the sum. -/
theorem totalCostRule (records : List AssessRecord)
    (assessments : List AssessCost) (analyses : List VisionAnalysis)
    (agg : VisionAggregate)
    (hrec : ∀ r ∈ records, r.costMin ≤ r.costMax)
    (hass : ∀ a ∈ assessments, a.costMin.getD 0 ≤ a.costMax.getD 0)
    (hana : ∀ a ∈ analyses, a.costMin ≤ a.costMax)
    (hagg : aggregateAnalyses analyses = some agg) :
    (getAssessmentSummary records).totalMin =
      (records.map (fun r => r.costMin)).sum ∧
    (getAssessmentSummary records).totalMax =
      (records.map (fun r => r.costMax)).sum ∧
    (getAssessmentSummary records).totalMin ≤ (getAssessmentSummary records).totalMax ∧
    actualDamageMin assessments = (assessments.map (fun a => a.costMin.getD 0)).sum ∧
    actualDamageMax assessments = (assessments.map (fun a => a.costMax.getD 0)).sum ∧
    actualDamageMin assessments ≤ actualDamageMax assessments ∧
    agg.costMin ≤ agg.costMax := by
  have hsum1 : (getAssessmentSummary records).totalMin =
      (records.map (fun r => r.costMin)).sum := by
    cases records with
    | nil => rfl
    | cons a rest => rfl
  have hsum2 : (getAssessmentSummary records).totalMax =
      (records.map (fun r => r.costMax)).sum := by
    cases records with
    | nil => rfl
    | cons a rest => rfl
  refine ⟨hsum1, hsum2, ?_, rfl, rfl, ?_, ?_⟩
  · rw [hsum1, hsum2]
    exact List.sum_le_sum hrec
  · exact List.sum_le_sum hass
  · unfold aggregateAnalyses at hagg
    split_ifs at hagg with he
    cases hfil : analyses.filter (fun a => a.success) with
    | nil =>
      rw [hfil] at hagg
      cases hagg
    | cons s rest =>
      rw [hfil] at hagg
      simp only [Option.some.injEq] at hagg
      have hmemf : ∀ x ∈ s :: rest, x.costMin ≤ x.costMax := by
        intro x hx
        exact hana x (List.mem_of_mem_filter (hfil ▸ hx))
      have := foldlMaxCost_le rest s.costMin s.costMax
        (hmemf s (by simp)) (fun y hy => hmemf y (by simp [hy]))
      rw [← hagg]
      exact this

theorem totalCostRule_witness :
    ((getAssessmentSummary [⟨.dent, .minor, 100, 200, [], false⟩]).totalMin =
       (([⟨.dent, .minor, 100, 200, [], false⟩] : List AssessRecord).map
         (fun r => r.costMin)).sum ∧
     (getAssessmentSummary [⟨.dent, .minor, 100, 200, [], false⟩]).totalMax =
       (([⟨.dent, .minor, 100, 200, [], false⟩] : List AssessRecord).map
         (fun r => r.costMax)).sum ∧
     (getAssessmentSummary [⟨.dent, .minor, 100, 200, [], false⟩]).totalMin ≤
       (getAssessmentSummary [⟨.dent, .minor, 100, 200, [], false⟩]).totalMax ∧
     actualDamageMin [⟨some 50, some 60⟩] =
       (([⟨some 50, some 60⟩] : List AssessCost).map
         (fun a => a.costMin.getD 0)).sum ∧
     actualDamageMax [⟨some 50, some 60⟩] =
       (([⟨some 50, some 60⟩] : List AssessCost).map
         (fun a => a.costMax.getD 0)).sum ∧
     actualDamageMin [⟨some 50, some 60⟩] ≤ actualDamageMax [⟨some 50, some 60⟩] ∧
     (⟨∅, "MODERATE", 50, ∅, 100, 200, 1⟩ : VisionAggregate).costMin ≤
       (⟨∅, "MODERATE", 50, ∅, 100, 200, 1⟩ : VisionAggregate).costMax) :=
  totalCostRule [⟨.dent, .minor, 100, 200, [], false⟩] [⟨some 50, some 60⟩]
    [⟨true, [], "MODERATE", 50, [], 100, 200⟩]
    ⟨∅, "MODERATE", 50, ∅, 100, 200, 1⟩
    (by intro r hr; rw [List.mem_singleton] at hr; subst hr; norm_num)
    (by intro a ha; rw [List.mem_singleton] at ha; subst ha; norm_num)
    (by intro a ha; rw [List.mem_singleton] at ha; subst ha; norm_num)
    (by
      norm_num [aggregateAnalyses, List.filter, sevOrderStr]
      decide)
